import Mathlib

/-!
Shallow embedding of the prompt-validation gateway (src/index.js).

The gateway is an AWS Lambda handler. We model the JSON values that
JSON.parse can produce, the moderation collaborator (AWS Bedrock
ApplyGuardrail) as an oracle outcome, the downstream fetch as an oracle
outcome, and each function of index.js as a Lean function over these.
JSON.stringify of the response payload is abstracted: a GatewayResponse
carries the payload itself rather than its serialized text.
-/

/-- JSON values, the possible results of JSON.parse (no undefined, no NaN;
numbers modelled as integers since no claim involves fractional values). -/
inductive Json where
  | null : Json
  | bool : Bool → Json
  | num : Int → Json
  | str : String → Json
  | arr : List Json → Json
  | obj : List (String × Json) → Json

/-- Field lookup on a JSON object field list (first binding wins, as in a
JS object literal produced by JSON.parse, where later duplicates overwrite:
JSON.parse keeps the last duplicate, but our object lists model the final
object, so duplicates do not arise). -/
def lookupField : List (String × Json) → String → Option Json
  | [], _ => none
  | (k, v) :: rest, key => if k = key then some v else lookupField rest key

/-- JS destructuring `const \x7b k \x7d = body` after JSON.parse: throws a
TypeError when body is null, yields the property for an object, and yields
undefined (none) for the other primitives and arrays, which have no such
own property for the keys the gateway uses. -/
def destructureField (body : Json) (key : String) : Except String (Option Json) :=
  match body with
  | Json.null => Except.error "TypeError: cannot destructure null"
  | Json.obj fields => Except.ok (lookupField fields key)
  | _ => Except.ok none

/-- JS truthiness of a possibly-undefined JSON value: undefined, null,
false, 0 and the empty string are falsy. -/
def jsTruthy : Option Json → Bool
  | none => false
  | some Json.null => false
  | some (Json.bool b) => b
  | some (Json.num n) => n != 0
  | some (Json.str s) => s != ""
  | some (Json.arr _) => true
  | some (Json.obj _) => true

/-- JS `typeof v === "string"` on a possibly-undefined JSON value. -/
def isStringVal : Option Json → Bool
  | some (Json.str _) => true
  | _ => false

/-- The string carried by a JSON string value (used only after
isStringVal holds). -/
def stringVal : Option Json → String
  | some (Json.str s) => s
  | _ => ""

/-- JS `a || b` on an optional string: undefined and the empty string
fall through to the default. -/
def jsOrStr (a : Option String) (b : String) : String :=
  match a with
  | none => b
  | some s => if s = "" then b else s

/-- One assessment of the moderation response. `assessmentType` models the
JS field `assessment.type` (absent allowed) and `coverageType` models
`assessment.guardrailCoverage?.type` (absent at either level collapses
to none). -/
structure Assessment where
  assessmentType : Option String
  coverageType : Option String

/-- Outcome of the moderation collaborator call (bedrockClient.send):
either a response with an action and optional assessments list, or a
thrown fault with a message. -/
inductive ModerationOutcome where
  | result (action : Option String) (assessments : Option (List Assessment))
  | fault (message : String)

/-- Normalized verdict produced by validatePrompt. -/
structure Verdict where
  allowed : Bool
  reason : String
  details : Option (List Assessment)
  errorNote : Option String

/-- JS template rendering of a possibly-undefined field inside a template
literal: undefined prints as "undefined". -/
def renderUndef : Option String → String
  | none => "undefined"
  | some s => s

/-- The per-assessment descriptor built at index.js:113-114. -/
def assessmentDescriptor (a : Assessment) : String :=
  renderUndef a.assessmentType ++ ": " ++ jsOrStr a.coverageType "unknown"

/-- `response.assessments?.map(...).join(", ")`: undefined when the
assessments list is absent. -/
def joinedReasons (assessments : Option (List Assessment)) : Option String :=
  assessments.map (fun l => String.intercalate ", " (l.map assessmentDescriptor))

/-- validatePrompt (index.js:94-140) as a function of the moderation
outcome. The prompt text itself only flows into the outbound command, so
it does not appear here; the outcome oracle stands for the response to
that command. -/
def validatePrompt (outcome : ModerationOutcome) : Verdict :=
  match outcome with
  | ModerationOutcome.result action assessments =>
      if action = some "GUARDRAIL_INTERVENED" then
        Verdict.mk false (jsOrStr (joinedReasons assessments) "Policy violation") assessments none
      else
        Verdict.mk true "Content approved" none none
  | ModerationOutcome.fault msg =>
      Verdict.mk false "Validation service unavailable" none (some msg)

/-- The wire response envelope. `body` holds the payload before
JSON.stringify. -/
structure GatewayResponse where
  statusCode : Nat
  headers : List (String × String)
  body : Json

/-- createResponse (index.js:34-45): the single envelope builder. -/
def createResponse (statusCode : Nat) (body : Json) : GatewayResponse :=
  GatewayResponse.mk statusCode
    [("Content-Type", "application/json"),
     ("Access-Control-Allow-Origin", "*"),
     ("Access-Control-Allow-Headers", "Content-Type"),
     ("Access-Control-Allow-Methods", "POST, GET, OPTIONS")]
    body

/-- Outcome of the downstream fetch in forwardToVideoService: a response
with a status and a body text (bodyJson is its JSON.parse result when the
text parses), or a connection failure (fetch rejected). -/
inductive FetchOutcome where
  | response (status : Nat) (bodyJson : Option Json) (bodyText : String)
  | connectionFailure (message : String)

/-- forwardToVideoService (index.js:48-81) as a function of the fetch
outcome. The outbound request construction (endpoint, forwarded
authorization header, raw body) does not affect the returned envelope
given the fetch outcome, so it is absorbed into the oracle. -/
def forwardToVideoService (f : FetchOutcome) : GatewayResponse :=
  match f with
  | FetchOutcome.response status bodyJson bodyText =>
      createResponse status
        (match bodyJson with
         | some j => j
         | none => Json.obj [("message", Json.str bodyText)])
  | FetchOutcome.connectionFailure _ =>
      createResponse 502 (Json.obj
        [("success", Json.bool false),
         ("message", Json.str "Video service unavailable"),
         ("error", Json.str "Failed to connect to video generation service")])

/-- State of the inbound `event.body` string: absent (falsy, so `or`
substitutes the empty-object literal), present but not valid JSON
(JSON.parse throws), or present and parsing to a JSON value. -/
inductive BodyState where
  | absent : BodyState
  | malformed : BodyState
  | parsed (j : Json) : BodyState

/-- `JSON.parse(event.body or-else "empty object literal")`. -/
def parseBody : BodyState → Except String Json
  | BodyState.absent => Except.ok (Json.obj [])
  | BodyState.malformed => Except.error "SyntaxError: invalid JSON"
  | BodyState.parsed j => Except.ok j

/-- Counts of collaborator invocations made by one pipeline run. -/
structure PipelineTrace where
  moderationCalls : Nat
  forwardCalls : Nat

/-- Payload of the 400 shape-check failure for a missing or non-string
(or, because the empty string is falsy, empty) prompt. -/
def requiredPromptPayload : Json :=
  Json.obj [("success", Json.bool false),
            ("message", Json.str "Invalid request: prompt is required and must be a string")]

/-- Payload of the 400 branch at index.js:156-161 for an empty prompt
(unreachable in the source, kept faithfully). -/
def emptyPromptPayload : Json :=
  Json.obj [("success", Json.bool false),
            ("message", Json.str "Invalid request: prompt cannot be empty")]

/-- Payload of the handleValidation catch-all 500. -/
def validationErrorPayload : Json :=
  Json.obj [("success", Json.bool false),
            ("allowed", Json.bool false),
            ("message", Json.str "Unable to validate content at this time"),
            ("error", Json.str "Internal server error")]

/-- Rendering of one raw assessment into the response payload (absent
fields are omitted, as JSON.stringify drops undefined). -/
def assessmentJson (a : Assessment) : Json :=
  Json.obj ((match a.assessmentType with
             | some t => [("type", Json.str t)]
             | none => []) ++
            (match a.coverageType with
             | some c => [("guardrailCoverage", Json.obj [("type", Json.str c)])]
             | none => []))

/-- `validation.details or-else empty list` rendered into the 422 payload. -/
def detailsJson (details : Option (List Assessment)) : Json :=
  match details with
  | some l => Json.arr (l.map assessmentJson)
  | none => Json.arr []

/-- The 422 denial payload built at index.js:173-181. -/
def blockedPayload (v : Verdict) : Json :=
  Json.obj [("success", Json.bool false),
            ("allowed", Json.bool false),
            ("message", Json.str "Content violates our community guidelines"),
            ("details", Json.obj [("reason", Json.str v.reason),
                                  ("assessments", detailsJson v.details)])]

/-- handleValidation (index.js:143-194). Returns the response together
with the trace of collaborator calls made. The moderation outcome and the
fetch outcome are oracles for the two awaited collaborator calls. -/
def handleValidation (body : BodyState) (outcome : ModerationOutcome)
    (fetch : FetchOutcome) : GatewayResponse × PipelineTrace :=
  match parseBody body with
  | Except.error _ => (createResponse 500 validationErrorPayload, PipelineTrace.mk 0 0)
  | Except.ok parsed =>
    match destructureField parsed "prompt" with
    | Except.error _ => (createResponse 500 validationErrorPayload, PipelineTrace.mk 0 0)
    | Except.ok prompt =>
      if !(jsTruthy prompt) || !(isStringVal prompt) then
        (createResponse 400 requiredPromptPayload, PipelineTrace.mk 0 0)
      else if (stringVal prompt).length = 0 then
        (createResponse 400 emptyPromptPayload, PipelineTrace.mk 0 0)
      else
        if (validatePrompt outcome).allowed then
          (forwardToVideoService fetch, PipelineTrace.mk 1 1)
        else
          (createResponse 422 (blockedPayload (validatePrompt outcome)),
           PipelineTrace.mk 1 0)

/-- JS `s.substring(0, n)`: the first n characters (whole string when
shorter). -/
def jsSubstring (s : String) (n : Nat) : String :=
  String.mk (s.data.take n)

/-- The per-item preview built at index.js:214: first 100 characters,
with an ellipsis marker appended when the prompt is longer than 100. -/
def promptPreview (s : String) : String :=
  jsSubstring s 100 ++ (if s.length > 100 then "..." else "")

/-- One entry of the batch results sequence. -/
structure BatchItem where
  index : Nat
  prompt : String
  allowed : Bool
  reason : String

/-- Placeholder item for safe positional access in statements. -/
def defaultBatchItem : BatchItem :=
  BatchItem.mk 0 "" false ""

/-- The body of the map callback at index.js:210-218 for the item at the
given index: validatePrompt never throws, but building the preview of a
non-string prompt throws a TypeError (no substring method), which rejects
the promise. -/
def batchItem (idx : Nat) (p : Json) (outcome : ModerationOutcome) :
    Except String BatchItem :=
  let v := validatePrompt outcome
  match p with
  | Json.str s => Except.ok (BatchItem.mk idx (promptPreview s) v.allowed v.reason)
  | _ => Except.error "TypeError: prompt.substring is not a function"

/-- `Promise.all(prompts.map(...))` starting at the given index: every
item is mapped with its position; any rejection rejects the whole join.
The oracle gives the moderation outcome of the call made for each index. -/
def batchResultsAux (oracle : Nat → ModerationOutcome) :
    Nat → List Json → Except String (List BatchItem)
  | _, [] => Except.ok []
  | i, p :: rest =>
    match batchItem i p (oracle i), batchResultsAux oracle (i + 1) rest with
    | Except.ok r, Except.ok rs => Except.ok (r :: rs)
    | Except.error e, _ => Except.error e
    | _, Except.error e => Except.error e

/-- The awaited results of index.js:209-219. -/
def batchResults (ps : List Json) (oracle : Nat → ModerationOutcome) :
    Except String (List BatchItem) :=
  batchResultsAux oracle 0 ps

/-- One result entry rendered into the 200 payload. -/
def batchItemJson (r : BatchItem) : Json :=
  Json.obj [("index", Json.num (Int.ofNat r.index)),
            ("prompt", Json.str r.prompt),
            ("allowed", Json.bool r.allowed),
            ("reason", Json.str r.reason)]

/-- The 200 payload built at index.js:221-229: results plus the summary
counted from them. -/
def batchOkPayload (total : Nat) (results : List BatchItem) : Json :=
  Json.obj [("success", Json.bool true),
            ("results", Json.arr (results.map batchItemJson)),
            ("summary", Json.obj
              [("total", Json.num (Int.ofNat total)),
               ("allowed", Json.num (Int.ofNat (results.filter (fun r => r.allowed)).length)),
               ("blocked", Json.num (Int.ofNat (results.filter (fun r => !r.allowed)).length))])]

/-- Payload of the 400 for a non-array prompts field. -/
def promptsNotArrayPayload : Json :=
  Json.obj [("success", Json.bool false),
            ("message", Json.str "Invalid request: prompts must be an array")]

/-- Payload of the batch catch-all 500. -/
def batchFailPayload : Json :=
  Json.obj [("success", Json.bool false),
            ("message", Json.str "Batch validation failed")]

/-- handleBatchValidation (index.js:197-238). -/
def handleBatchValidation (body : BodyState) (oracle : Nat → ModerationOutcome) :
    GatewayResponse :=
  match parseBody body with
  | Except.error _ => createResponse 500 batchFailPayload
  | Except.ok parsed =>
    match destructureField parsed "prompts" with
    | Except.error _ => createResponse 500 batchFailPayload
    | Except.ok promptsVal =>
      match promptsVal with
      | some (Json.arr ps) =>
        (match batchResults ps oracle with
         | Except.ok results => createResponse 200 (batchOkPayload ps.length results)
         | Except.error _ => createResponse 500 batchFailPayload)
      | _ => createResponse 400 promptsNotArrayPayload

/-- handleHealth (index.js:241-250); the timestamp string is a parameter
standing for new Date().toISOString(). -/
def handleHealth (now : String) : GatewayResponse :=
  createResponse 200 (Json.obj
    [("status", Json.str "healthy"),
     ("timestamp", Json.str now),
     ("config", Json.obj [("guardrailId", Json.str "your-guardrail-id"),
                          ("version", Json.str "DRAFT")])])

/-- handleConfig (index.js:253-260). -/
def handleConfig : GatewayResponse :=
  createResponse 200 (Json.obj
    [("guardrailId", Json.str "your-guardrail-id"),
     ("guardrailVersion", Json.str "DRAFT"),
     ("loggingEnabled", Json.bool true),
     ("messages", Json.obj
       [("blocked", Json.str "Content violates our community guidelines"),
        ("error", Json.str "Unable to validate content at this time")])])

/-- Payload of the 404 default route. -/
def notFoundPayload : Json :=
  Json.obj [("success", Json.bool false),
            ("message", Json.str "Not found"),
            ("availableEndpoints", Json.arr
              [Json.str "POST /validate - Validate and forward to video service",
               Json.str "POST /validate-batch - Batch validation (returns results only)",
               Json.str "GET /health - Service health check",
               Json.str "GET /config - View current configuration"])]

/-- The inbound Lambda event as the router reads it: the REST-style
httpMethod field, the HTTP-API-style requestContext.http.method fallback,
the two path fields, and the body string state. -/
structure Event where
  httpMethod : Option String
  requestContextMethod : Option String
  path : Option String
  rawPath : Option String
  body : BodyState

/-- JS `a || b` over two optional strings (empty string is falsy). -/
def jsOrOpt (a b : Option String) : Option String :=
  match a with
  | none => b
  | some s => if s = "" then b else some s

/-- `event.path || event.rawPath || "/"` (index.js:271). -/
def eventPath (e : Event) : String :=
  jsOrStr (jsOrOpt e.path e.rawPath) "/"

/-- `event.httpMethod || event.requestContext?.http?.method || "GET"`
(index.js:272). -/
def eventMethod (e : Event) : String :=
  jsOrStr (jsOrOpt e.httpMethod e.requestContextMethod) "GET"

/-- The Lambda handler (index.js:263-311). The preflight branch tests
`event.httpMethod === "OPTIONS"` directly, before the method fallback is
computed. The routed handlers never throw in this model (each contains
its own faults), so the top-level catch is dead here as in the source. -/
def handler (e : Event) (outcome : ModerationOutcome) (fetch : FetchOutcome)
    (oracle : Nat → ModerationOutcome) (now : String) : GatewayResponse :=
  if e.httpMethod = some "OPTIONS" then
    createResponse 200 (Json.obj [("message", Json.str "OK")])
  else
    if eventMethod e = "POST" && eventPath e = "/validate" then
      (handleValidation e.body outcome fetch).1
    else if eventMethod e = "POST" && eventPath e = "/validate-batch" then
      handleBatchValidation e.body oracle
    else if eventMethod e = "GET" && eventPath e = "/health" then
      handleHealth now
    else if eventMethod e = "GET" && eventPath e = "/config" then
      handleConfig
    else
      createResponse 404 notFoundPayload

/-- The moderation collaborator answered and reported intervention. -/
def reportsIntervention : ModerationOutcome → Prop
  | ModerationOutcome.result action _ => action = some "GUARDRAIL_INTERVENED"
  | ModerationOutcome.fault _ => False

/-- The moderation collaborator answered and reported no intervention. -/
def reportsNoIntervention : ModerationOutcome → Prop
  | ModerationOutcome.result action _ => action ≠ some "GUARDRAIL_INTERVENED"
  | ModerationOutcome.fault _ => False

/-- A single-validation body whose prompt field holds the given string. -/
def promptBody (s : String) : BodyState :=
  BodyState.parsed (Json.obj [("prompt", Json.str s)])

/-- Header lookup on a response header list. -/
def lookupHeader : List (String × String) → String → Option String
  | [], _ => none
  | (k, v) :: rest, key => if k = key then some v else lookupHeader rest key

/-- The Access-Control-Allow-Headers value carried by a response (empty
when the header is absent). -/
def corsAllowHeaders (r : GatewayResponse) : String :=
  (lookupHeader r.headers "Access-Control-Allow-Headers").getD ""

/-- The batch items computed for an all-string prompts list starting at
the given index: the closed form of batchResultsAux on string inputs. -/
def strBatchItemsAux (oracle : Nat → ModerationOutcome) :
    Nat → List String → List BatchItem
  | _, [] => []
  | i, s :: rest =>
    BatchItem.mk i (promptPreview s) (validatePrompt (oracle i)).allowed
        (validatePrompt (oracle i)).reason
      :: strBatchItemsAux oracle (i + 1) rest

/-- The batch items computed for an all-string prompts list. -/
def strBatchItems (oracle : Nat → ModerationOutcome) (ps : List String) :
    List BatchItem :=
  strBatchItemsAux oracle 0 ps

lemma jsOrStr_ne_empty (a : Option String) (d : String) (hd : d ≠ "") :
    jsOrStr a d ≠ "" := by
  cases a with
  | none => simpa [jsOrStr] using hd
  | some s =>
    by_cases hs : s = "" <;> simp [jsOrStr, hs, hd]

lemma validatePrompt_allowed_of_noIntervention (o : ModerationOutcome)
    (h : reportsNoIntervention o) : (validatePrompt o).allowed = true := by
  cases o with
  | result action assessments =>
    simp only [reportsNoIntervention] at h
    simp [validatePrompt, h]
  | fault msg => exact absurd h (by simp [reportsNoIntervention])

lemma validatePrompt_blocked_of_intervention (o : ModerationOutcome)
    (h : reportsIntervention o) : (validatePrompt o).allowed = false := by
  cases o with
  | result action assessments =>
    simp only [reportsIntervention] at h
    simp [validatePrompt, h]
  | fault msg => exact absurd h (by simp [reportsIntervention])

lemma String.length_ne_zero_of_ne_empty (s : String) (hs : s ≠ "") :
    s.length ≠ 0 := by
  intro h
  apply hs
  cases s with
  | mk data =>
    cases data with
    | nil => rfl
    | cons a l => simp [String.length] at h

/-- Evaluation of handleValidation on a well-shaped non-empty prompt:
the shape checks pass and the verdict decides between forwarding and the
422 denial. -/
lemma handleValidation_eq_of_ne_empty (s : String) (hs : s ≠ "")
    (o : ModerationOutcome) (f : FetchOutcome) :
    handleValidation (promptBody s) o f =
      if (validatePrompt o).allowed then
        (forwardToVideoService f, PipelineTrace.mk 1 1)
      else
        (createResponse 422 (blockedPayload (validatePrompt o)), PipelineTrace.mk 1 0) := by
  have hlen := String.length_ne_zero_of_ne_empty s hs
  simp [handleValidation, promptBody, parseBody, destructureField, lookupField,
    jsTruthy, isStringVal, stringVal, hs, hlen]

/-- On every path where the verdict is blocked, the Forwarding Client is
not invoked, whatever the body. -/
lemma forwardCalls_zero_of_blocked (b : BodyState) (o : ModerationOutcome)
    (f : FetchOutcome) (h : (validatePrompt o).allowed = false) :
    (handleValidation b o f).2.forwardCalls = 0 := by
  unfold handleValidation
  split
  · rfl
  · split
    · rfl
    · split
      · rfl
      · split
        · rfl
        · simp [h]

lemma batchResultsAux_map_str (oracle : Nat → ModerationOutcome)
    (ps : List String) : ∀ i,
    batchResultsAux oracle i (ps.map Json.str)
      = Except.ok (strBatchItemsAux oracle i ps) := by
  induction ps with
  | nil => intro i; rfl
  | cons s rest ih =>
    intro i
    simp [batchResultsAux, batchItem, strBatchItemsAux, ih]

lemma strBatchItemsAux_length (oracle : Nat → ModerationOutcome)
    (ps : List String) : ∀ i,
    (strBatchItemsAux oracle i ps).length = ps.length := by
  induction ps with
  | nil => intro i; rfl
  | cons s rest ih => intro i; simp [strBatchItemsAux, ih]

lemma strBatchItemsAux_getD_index (oracle : Nat → ModerationOutcome)
    (ps : List String) : ∀ i k, k < ps.length →
    ((strBatchItemsAux oracle i ps).getD k defaultBatchItem).index = i + k := by
  induction ps with
  | nil => intro i k h; simp at h
  | cons s rest ih =>
    intro i k h
    cases k with
    | zero => simp [strBatchItemsAux]
    | succ k =>
      have hk : k < rest.length := by
        simpa using Nat.lt_of_succ_lt_succ (by simpa using h)
      have := ih (i + 1) k hk
      simp only [strBatchItemsAux, List.getD_cons_succ]
      omega

lemma filter_allowed_partition (l : List BatchItem) :
    (l.filter (fun r => r.allowed)).length
      + (l.filter (fun r => !r.allowed)).length = l.length := by
  induction l with
  | nil => rfl
  | cons r rest ih =>
    cases hr : r.allowed <;> simp [List.filter_cons, hr] <;> omega

lemma batchResultsAux_error_of_non_string (oracle : Nat → ModerationOutcome)
    (ps : List Json) : ∀ i, (∃ p ∈ ps, isStringVal (some p) = false) →
    ∃ e, batchResultsAux oracle i ps = Except.error e := by
  induction ps with
  | nil => intro i h; simp at h
  | cons p rest ih =>
    intro i h
    rcases h with ⟨q, hq, hns⟩
    rcases List.mem_cons.mp hq with hqp | hqrest
    · subst hqp
      cases q with
      | str s => simp [isStringVal] at hns
      | null =>
        exact ⟨"TypeError: prompt.substring is not a function",
          by simp [batchResultsAux, batchItem]⟩
      | bool b =>
        exact ⟨"TypeError: prompt.substring is not a function",
          by simp [batchResultsAux, batchItem]⟩
      | num n =>
        exact ⟨"TypeError: prompt.substring is not a function",
          by simp [batchResultsAux, batchItem]⟩
      | arr l =>
        exact ⟨"TypeError: prompt.substring is not a function",
          by simp [batchResultsAux, batchItem]⟩
      | obj fields =>
        exact ⟨"TypeError: prompt.substring is not a function",
          by simp [batchResultsAux, batchItem]⟩
    · rcases ih (i + 1) ⟨q, hqrest, hns⟩ with ⟨e, he⟩
      cases hpi : batchItem i p (oracle i) with
      | error e2 => exact ⟨e2, by simp [batchResultsAux, hpi]⟩
      | ok r => exact ⟨e, by simp [batchResultsAux, hpi, he]⟩

/-- A moderation outcome reporting intervention, with no assessments. -/
def interventionOutcome : ModerationOutcome :=
  ModerationOutcome.result (some "GUARDRAIL_INTERVENED") none

/-- Claim C1: whenever the moderation collaborator reports intervention,
handleValidation returns status 422 on every well-shaped non-empty
prompt, does not invoke the Forwarding Client there, and more generally
the Forwarding Client is not invoked on any body (any blocked path). -/
theorem blocked_prompt_returns_422_and_never_forwards
    (s : String) (hs : s ≠ "") (o : ModerationOutcome)
    (ho : reportsIntervention o) (f : FetchOutcome) (b : BodyState) :
    (handleValidation (promptBody s) o f).1.statusCode = 422
      ∧ (handleValidation (promptBody s) o f).2.forwardCalls = 0
      ∧ (handleValidation b o f).2.forwardCalls = 0 := by
  have hb := validatePrompt_blocked_of_intervention o ho
  have h1 := handleValidation_eq_of_ne_empty s hs o f
  rw [hb] at h1
  simp only [Bool.false_eq_true, if_false] at h1
  exact ⟨by simp [h1, createResponse], by simp [h1],
    forwardCalls_zero_of_blocked b o f hb⟩

theorem blocked_prompt_returns_422_and_never_forwards_wit :
    (handleValidation (promptBody "hello") interventionOutcome
        (FetchOutcome.connectionFailure "x")).1.statusCode = 422
      ∧ (handleValidation (promptBody "hello") interventionOutcome
        (FetchOutcome.connectionFailure "x")).2.forwardCalls = 0
      ∧ (handleValidation BodyState.absent interventionOutcome
        (FetchOutcome.connectionFailure "x")).2.forwardCalls = 0 :=
  blocked_prompt_returns_422_and_never_forwards "hello" (by decide)
    interventionOutcome rfl (FetchOutcome.connectionFailure "x") BodyState.absent

/-- Claim C2: every fault of the moderation collaborator yields a verdict
with allowed false and reason exactly "Validation service unavailable",
and the single-mode pipeline then returns 422, never a 5xx, on every
well-shaped non-empty prompt. -/
theorem moderation_fault_fails_closed_as_422
    (s : String) (hs : s ≠ "") (msg : String) (f : FetchOutcome) :
    (validatePrompt (ModerationOutcome.fault msg)).allowed = false
      ∧ (validatePrompt (ModerationOutcome.fault msg)).reason
        = "Validation service unavailable"
      ∧ (handleValidation (promptBody s) (ModerationOutcome.fault msg) f).1.statusCode
        = 422
      ∧ (handleValidation (promptBody s) (ModerationOutcome.fault msg) f).1.statusCode
        < 500 := by
  have h1 := handleValidation_eq_of_ne_empty s hs (ModerationOutcome.fault msg) f
  have hb : (validatePrompt (ModerationOutcome.fault msg)).allowed = false := rfl
  rw [hb] at h1
  simp only [Bool.false_eq_true, if_false] at h1
  exact ⟨rfl, rfl, by simp [h1, createResponse],
    by simp [h1, createResponse]⟩

theorem moderation_fault_fails_closed_as_422_wit :
    (validatePrompt (ModerationOutcome.fault "timeout")).allowed = false
      ∧ (validatePrompt (ModerationOutcome.fault "timeout")).reason
        = "Validation service unavailable"
      ∧ (handleValidation (promptBody "hello") (ModerationOutcome.fault "timeout")
          (FetchOutcome.connectionFailure "x")).1.statusCode = 422
      ∧ (handleValidation (promptBody "hello") (ModerationOutcome.fault "timeout")
          (FetchOutcome.connectionFailure "x")).1.statusCode < 500 :=
  moderation_fault_fails_closed_as_422 "hello" (by decide) "timeout"
    (FetchOutcome.connectionFailure "x")

/-- Claim C3: whenever the moderation collaborator reports no
intervention, the single-mode pipeline on a well-shaped non-empty prompt
invokes the Forwarding Client exactly once and returns its envelope
unchanged. -/
theorem allowed_prompt_forwards_once_unchanged
    (s : String) (hs : s ≠ "") (o : ModerationOutcome)
    (ho : reportsNoIntervention o) (f : FetchOutcome) :
    handleValidation (promptBody s) o f
      = (forwardToVideoService f, PipelineTrace.mk 1 1) := by
  have ha := validatePrompt_allowed_of_noIntervention o ho
  have h1 := handleValidation_eq_of_ne_empty s hs o f
  rw [ha] at h1
  simpa using h1

theorem allowed_prompt_forwards_once_unchanged_wit :
    handleValidation (promptBody "hello") (ModerationOutcome.result none none)
        (FetchOutcome.response 200 none "hi")
      = (forwardToVideoService (FetchOutcome.response 200 none "hi"),
         PipelineTrace.mk 1 1) :=
  allowed_prompt_forwards_once_unchanged "hello" (by decide)
    (ModerationOutcome.result none none) (by simp [reportsNoIntervention])
    (FetchOutcome.response 200 none "hi")

/-- Claim C4 (code divergence): the empty prompt is falsy in JS, so the
check at index.js:149 already catches it and returns the
required-and-must-be-a-string message; the dedicated empty-prompt branch
at index.js:156-161 is unreachable. A missing prompt takes the same
branch. In both cases no collaborator is called (trace 0 0). -/
theorem empty_prompt_hits_required_branch :
    handleValidation (promptBody "") (ModerationOutcome.fault "down")
        (FetchOutcome.connectionFailure "x")
      = (createResponse 400 requiredPromptPayload, PipelineTrace.mk 0 0)
    ∧ handleValidation (BodyState.parsed (Json.obj [])) (ModerationOutcome.fault "down")
        (FetchOutcome.connectionFailure "x")
      = (createResponse 400 requiredPromptPayload, PipelineTrace.mk 0 0)
    ∧ destructureField requiredPromptPayload "message"
      = Except.ok (some (Json.str "Invalid request: prompt is required and must be a string")) :=
  ⟨rfl, rfl, rfl⟩

/-- Claim C9: every verdict with allowed false carries a non-empty
reason, for every moderation outcome (missing or empty assessments
included) and for every fault. -/
theorem blocked_verdict_reason_nonempty (o : ModerationOutcome)
    (h : (validatePrompt o).allowed = false) :
    (validatePrompt o).reason ≠ "" := by
  cases o with
  | fault msg => simp [validatePrompt]
  | result action assessments =>
    by_cases ha : action = some "GUARDRAIL_INTERVENED"
    · have := jsOrStr_ne_empty (joinedReasons assessments) "Policy violation" (by decide)
      simpa [validatePrompt, ha] using this
    · exfalso
      simp [validatePrompt, ha] at h

theorem blocked_verdict_reason_nonempty_wit :
    (validatePrompt (ModerationOutcome.result (some "GUARDRAIL_INTERVENED") (some []))).reason
      ≠ "" :=
  blocked_verdict_reason_nonempty
    (ModerationOutcome.result (some "GUARDRAIL_INTERVENED") (some [])) rfl

/-- Claim C5: a batch of N string prompts yields status 200, a result
sequence of length N whose entry at every position i carries index i
(input order preserved), total N, and allowed plus blocked counts summing
to N. -/
theorem batch_preserves_order_and_counts (ps : List String)
    (oracle : Nat → ModerationOutcome) :
    handleBatchValidation (BodyState.parsed (Json.obj
        [("prompts", Json.arr (ps.map Json.str))])) oracle
      = createResponse 200 (batchOkPayload ps.length (strBatchItems oracle ps))
    ∧ (strBatchItems oracle ps).length = ps.length
    ∧ (∀ i, i < (strBatchItems oracle ps).length →
        ((strBatchItems oracle ps).getD i defaultBatchItem).index = i)
    ∧ ((strBatchItems oracle ps).filter (fun r => r.allowed)).length
        + ((strBatchItems oracle ps).filter (fun r => !r.allowed)).length
      = ps.length := by
  have hres := batchResultsAux_map_str oracle ps 0
  have hlen : (strBatchItems oracle ps).length = ps.length :=
    strBatchItemsAux_length oracle ps 0
  refine ⟨?_, hlen, ?_, ?_⟩
  · simp [handleBatchValidation, parseBody, destructureField, lookupField,
      batchResults, hres, strBatchItems]
  · intro i hi
    rw [hlen] at hi
    simpa using strBatchItemsAux_getD_index oracle ps 0 i hi
  · rw [← hlen]
    exact filter_allowed_partition (strBatchItems oracle ps)

theorem batch_preserves_order_and_counts_wit :
    ((strBatchItems (fun _ => ModerationOutcome.fault "down") ["a", "bb"]).getD 1
        defaultBatchItem).index = 1 :=
  (batch_preserves_order_and_counts ["a", "bb"]
    (fun _ => ModerationOutcome.fault "down")).2.2.1 1 (by decide)

/-- Claim C7: a batch item for a string prompt carries its preview; the
preview is the identity on prompts of at most 100 characters and is the
first 100 characters followed by the ellipsis marker on longer ones. -/
theorem batch_preview_truncation (i : Nat) (s : String) (o : ModerationOutcome) :
    batchItem i (Json.str s) o
        = Except.ok (BatchItem.mk i (promptPreview s) (validatePrompt o).allowed
            (validatePrompt o).reason)
      ∧ (s.length ≤ 100 → promptPreview s = s)
      ∧ (100 < s.length → promptPreview s = jsSubstring s 100 ++ "...") := by
  refine ⟨rfl, ?_, ?_⟩
  · intro h
    have hnot : ¬ s.length > 100 := by omega
    have htake : s.data.take 100 = s.data := List.take_of_length_le h
    simp [promptPreview, hnot, jsSubstring, htake]
  · intro h
    have hgt : s.length > 100 := h
    simp [promptPreview, hgt]

/-- A 101-character prompt used to exercise the truncation branch. -/
def longPrompt : String := String.mk (List.replicate 101 'a')

theorem batch_preview_truncation_wit :
    promptPreview "hi" = "hi"
      ∧ promptPreview longPrompt = jsSubstring longPrompt 100 ++ "..." :=
  ⟨(batch_preview_truncation 0 "hi" (ModerationOutcome.fault "down")).2.1 (by decide),
   (batch_preview_truncation 0 longPrompt (ModerationOutcome.fault "down")).2.2 (by decide)⟩

/-- Claim C10: a batch whose prompts array contains a non-string element
faults while building that element entry, the whole request returns 500
with the batch-failure payload, and no per-item results appear in it. -/
theorem batch_non_string_element_faults_whole_batch (ps : List Json)
    (oracle : Nat → ModerationOutcome)
    (h : ∃ p ∈ ps, isStringVal (some p) = false) :
    (∃ e, batchResults ps oracle = Except.error e)
    ∧ handleBatchValidation (BodyState.parsed (Json.obj [("prompts", Json.arr ps)]))
        oracle
      = createResponse 500 batchFailPayload := by
  rcases batchResultsAux_error_of_non_string oracle ps 0 h with ⟨e, he⟩
  refine ⟨⟨e, he⟩, ?_⟩
  simp [handleBatchValidation, parseBody, destructureField, lookupField,
    batchResults, he]

theorem batch_non_string_element_faults_whole_batch_wit :
    handleBatchValidation (BodyState.parsed (Json.obj
        [("prompts", Json.arr [Json.num 5])])) (fun _ => ModerationOutcome.fault "down")
      = createResponse 500 batchFailPayload :=
  (batch_non_string_element_faults_whole_batch [Json.num 5]
    (fun _ => ModerationOutcome.fault "down")
    ⟨Json.num 5, by simp, rfl⟩).2

lemma forwardToVideoService_envelope (f : FetchOutcome) :
    ∃ c p, forwardToVideoService f = createResponse c p := by
  cases f with
  | response status bodyJson bodyText => cases bodyJson <;> exact ⟨_, _, rfl⟩
  | connectionFailure m => exact ⟨_, _, rfl⟩

lemma handleValidation_envelope (b : BodyState) (o : ModerationOutcome)
    (f : FetchOutcome) :
    ∃ c p, (handleValidation b o f).1 = createResponse c p := by
  unfold handleValidation
  split
  · exact ⟨_, _, rfl⟩
  · split
    · exact ⟨_, _, rfl⟩
    · split
      · exact ⟨_, _, rfl⟩
      · split
        · exact ⟨_, _, rfl⟩
        · split
          · exact forwardToVideoService_envelope f
          · exact ⟨_, _, rfl⟩

lemma handleBatchValidation_envelope (b : BodyState)
    (oracle : Nat → ModerationOutcome) :
    ∃ c p, handleBatchValidation b oracle = createResponse c p := by
  unfold handleBatchValidation
  split
  · exact ⟨_, _, rfl⟩
  · split
    · exact ⟨_, _, rfl⟩
    · split
      · split
        · exact ⟨_, _, rfl⟩
        · exact ⟨_, _, rfl⟩
      · exact ⟨_, _, rfl⟩

lemma handler_envelope (e : Event) (o : ModerationOutcome) (f : FetchOutcome)
    (oracle : Nat → ModerationOutcome) (now : String) :
    ∃ c p, handler e o f oracle now = createResponse c p := by
  unfold handler
  split
  · exact ⟨_, _, rfl⟩
  · split
    · exact handleValidation_envelope e.body o f
    · split
      · exact handleBatchValidation_envelope e.body oracle
      · split
        · exact ⟨_, _, rfl⟩
        · split
          · exact ⟨_, _, rfl⟩
          · exact ⟨_, _, rfl⟩

/-- The header-list value names a token: the token occurs in it. -/
def listsHeaderToken (value token : String) : Prop :=
  ∃ pre post, value = pre ++ token ++ post

/-- Claim C6 counterexample: a concrete routed response carries the
Access-Control-Allow-Headers value "Content-Type", in which Authorization
does not occur at all. -/
theorem cors_headers_missing_authorization :
    corsAllowHeaders (handler
        (Event.mk (some "GET") none (some "/health") none BodyState.absent)
        (ModerationOutcome.fault "down") (FetchOutcome.connectionFailure "x")
        (fun _ => ModerationOutcome.fault "down") "now")
      = "Content-Type"
    ∧ ¬ listsHeaderToken (corsAllowHeaders (handler
        (Event.mk (some "GET") none (some "/health") none BodyState.absent)
        (ModerationOutcome.fault "down") (FetchOutcome.connectionFailure "x")
        (fun _ => ModerationOutcome.fault "down") "now")) "Authorization" := by
  refine ⟨rfl, ?_⟩
  rintro ⟨pre, post, h⟩
  have hv : corsAllowHeaders (handler
      (Event.mk (some "GET") none (some "/health") none BodyState.absent)
      (ModerationOutcome.fault "down") (FetchOutcome.connectionFailure "x")
      (fun _ => ModerationOutcome.fault "down") "now") = "Content-Type" := rfl
  rw [hv] at h
  have hl := congrArg String.length h
  have h12 : ("Content-Type" : String).length = 12 := rfl
  have h13 : ("Authorization" : String).length = 13 := rfl
  simp only [String.length_append, h12, h13] at hl
  omega

/-- Claim C6 (amended): every response of the router is built by the
single envelope builder and carries Content-Type application/json,
Access-Control-Allow-Origin star, Access-Control-Allow-Headers exactly
"Content-Type" (Authorization is not included), and
Access-Control-Allow-Methods "POST, GET, OPTIONS". -/
theorem gateway_envelope_uniform_headers (e : Event) (o : ModerationOutcome)
    (f : FetchOutcome) (oracle : Nat → ModerationOutcome) (now : String) :
    (∃ c p, handler e o f oracle now = createResponse c p)
    ∧ (handler e o f oracle now).headers
      = [("Content-Type", "application/json"),
         ("Access-Control-Allow-Origin", "*"),
         ("Access-Control-Allow-Headers", "Content-Type"),
         ("Access-Control-Allow-Methods", "POST, GET, OPTIONS")] := by
  rcases handler_envelope e o f oracle now with ⟨c, p, h⟩
  exact ⟨⟨c, p, h⟩, by rw [h]; rfl⟩

/-- An HTTP-API-style event whose method arrives only through
requestContext.http.method. -/
def optionsViaContextEvent : Event :=
  Event.mk none (some "OPTIONS") (some "/validate") none BodyState.absent

/-- Claim C8 counterexample: an event whose method (as the router itself
computes it at index.js:272) is OPTIONS, delivered through the
requestContext fallback with no httpMethod field, is not answered by the
preflight branch: it falls through dispatch to the 404 route. -/
theorem options_via_request_context_returns_404 :
    eventMethod optionsViaContextEvent = "OPTIONS"
    ∧ handler optionsViaContextEvent (ModerationOutcome.fault "down")
        (FetchOutcome.connectionFailure "x")
        (fun _ => ModerationOutcome.fault "down") "now"
      = createResponse 404 notFoundPayload :=
  ⟨rfl, rfl⟩

/-- Claim C8 (amended): every inbound request whose httpMethod field is
OPTIONS is answered 200 with the OK message, regardless of path and body,
bypassing all dispatch including the not-found branch. -/
theorem http_method_options_short_circuits (e : Event)
    (h : e.httpMethod = some "OPTIONS") (o : ModerationOutcome)
    (f : FetchOutcome) (oracle : Nat → ModerationOutcome) (now : String) :
    handler e o f oracle now
      = createResponse 200 (Json.obj [("message", Json.str "OK")]) := by
  simp [handler, h]

theorem http_method_options_short_circuits_wit :
    handler (Event.mk (some "OPTIONS") none (some "/no-such-route") none
        BodyState.malformed) (ModerationOutcome.fault "down")
        (FetchOutcome.connectionFailure "x")
        (fun _ => ModerationOutcome.fault "down") "now"
      = createResponse 200 (Json.obj [("message", Json.str "OK")]) :=
  http_method_options_short_circuits
    (Event.mk (some "OPTIONS") none (some "/no-such-route") none BodyState.malformed)
    rfl (ModerationOutcome.fault "down") (FetchOutcome.connectionFailure "x")
    (fun _ => ModerationOutcome.fault "down") "now"
